import Mathlib

/-!
Verification of the pronunciation-downloader plugin core (`src/main.ts`).

The development shallowly embeds the two components of the program:

* `ForvoAPI.searchWord` — URL construction from a word and an options
  record (conditional `/field/value` appends driven by JS truthiness),
  JSON-envelope error translation (`decodeLookup`), and the wrapping of
  transport failures;
* `PronunciationDownloader.downloadPronunciationWithLanguage` — the
  orchestration: lookup, first-item selection, audio fetch, vault write,
  editor insertion, user notices.  It is modelled as a pure function from
  an environment (the outcomes of the two network calls) to a `Trace` of
  the observable effects (network calls made, files written, editor
  insertions, notices shown).

The ribbon / command handlers of `onload` are modelled as functions from
the current selection state to a list of UI effects.
-/

/-- Occurrence of `pat` as a contiguous sublist of `l` (used to check that a
string does or does not appear inside a built URL). -/
def occursIn (pat : List Char) : List Char → Bool
  | [] => List.isPrefixOf pat []
  | c :: rest => List.isPrefixOf pat (c :: rest) || occursIn pat rest

/-! ### The JS `encodeURIComponent` builtin

`encodeURIComponent` keeps the unreserved characters
`A–Z a–z 0–9 - _ . ! ~ * ' ( )` and replaces every other character by the
percent-encoding of its UTF-8 bytes, upper-case hex. -/

/-- Characters left unchanged by `encodeURIComponent`. -/
def isUnreservedChar (c : Char) : Bool :=
  let n := c.toNat
  (65 ≤ n && n ≤ 90) || (97 ≤ n && n ≤ 122) || (48 ≤ n && n ≤ 57) ||
  n == 45 || n == 95 || n == 46 || n == 33 || n == 126 ||
  n == 42 || n == 39 || n == 40 || n == 41

/-- Upper-case hexadecimal digit for `n < 16` (out-of-range index returns the
default list element). -/
def hexDigit (n : Nat) : Char :=
  "0123456789ABCDEF".data.getD n '0'

/-- UTF-8 byte sequence of a Unicode scalar value. -/
def utf8Bytes (n : Nat) : List Nat :=
  if n < 128 then [n]
  else if n < 2048 then [192 + n / 64, 128 + n % 64]
  else if n < 65536 then [224 + n / 4096, 128 + n / 64 % 64, 128 + n % 64]
  else [240 + n / 262144, 128 + n / 4096 % 64, 128 + n / 64 % 64, 128 + n % 64]

/-- Percent-encode a list of bytes: each byte `b` becomes `%XY`. -/
def percentBytes : List Nat → List Char
  | [] => []
  | b :: bs => '%' :: hexDigit (b / 16) :: hexDigit (b % 16) :: percentBytes bs

/-- Character-by-character encoding underlying `encodeURIComponent`. -/
def encodeChars : List Char → List Char
  | [] => []
  | c :: cs =>
    (if isUnreservedChar c then [c] else percentBytes (utf8Bytes c.toNat))
      ++ encodeChars cs

/-- The JS `encodeURIComponent` builtin, applied to the search word at
`src/main.ts:85`. -/
def encodeURIComponent (s : String) : String :=
  String.mk (encodeChars s.data)

/-! ### SearchOptions and the URL builder (`ForvoAPI.searchWord`, lines 76–96) -/

/-- Voice sex option, TS union `'m' | 'f'`. -/
inductive Sex
  | m
  | f
deriving DecidableEq

/-- String value interpolated into the URL for a `Sex`. -/
def Sex.code : Sex → String
  | .m => "m"
  | .f => "f"

/-- Sort-order option, TS union `'date-desc' | 'date-asc' | 'rate-desc' | 'rate-asc'`. -/
inductive SortOrder
  | dateDesc
  | dateAsc
  | rateDesc
  | rateAsc
deriving DecidableEq

/-- String value interpolated into the URL for a `SortOrder`. -/
def SortOrder.code : SortOrder → String
  | .dateDesc => "date-desc"
  | .dateAsc => "date-asc"
  | .rateDesc => "rate-desc"
  | .rateAsc => "rate-asc"

/-- The options record of `searchWord` (`src/main.ts:76-84`).  Every field is
optional; `country` is declared in the TS type just like the others. -/
structure SearchOptions where
  language : Option String := none
  country : Option String := none
  username : Option String := none
  sex : Option Sex := none
  rate : Option Int := none
  order : Option SortOrder := none
  limit : Option Int := none
deriving DecidableEq

/-- `if (options.f) url += "/f/" + options.f` for a string-valued option:
JS truthiness treats the empty string as absent. -/
def appendStrSeg (url fieldName : String) (v : Option String) : String :=
  match v with
  | none => url
  | some s => if s = "" then url else url ++ "/" ++ fieldName ++ "/" ++ s

/-- `if (options.f) url += "/f/" + options.f` for a number-valued option:
JS truthiness treats `0` as absent. -/
def appendNumSeg (url fieldName : String) (v : Option Int) : String :=
  match v with
  | none => url
  | some n => if n = 0 then url else url ++ "/" ++ fieldName ++ "/" ++ toString n

/-- `if (options.f) url += "/f/" + options.f` for an enumeration-valued
option; the code strings are never empty, hence always truthy. -/
def appendEnumSeg {α : Type} (url fieldName : String) (v : Option α)
    (code : α → String) : String :=
  match v with
  | none => url
  | some x => url ++ "/" ++ fieldName ++ "/" ++ code x

/-- Service base URL (`src/main.ts:70`). -/
def forvoBase : String := "https://apifree.forvo.com"

/-- URL construction of `ForvoAPI.searchWord` (`src/main.ts:85-96`): the word
segment with the percent-encoded term, then the conditional option segments in
source order (`country` is never consulted), then the key segment. -/
def searchWordURL (apiKey word : String) (o : SearchOptions) : String :=
  let u0 := forvoBase ++ "/action/word-pronunciations/format/json/word/"
              ++ encodeURIComponent word
  let u1 := appendStrSeg u0 "id_lang_speak" o.language
  let u2 := appendStrSeg u1 "username" o.username
  let u3 := appendEnumSeg u2 "sex" o.sex Sex.code
  let u4 := appendNumSeg u3 "rate" o.rate
  let u5 := appendEnumSeg u4 "order" o.order SortOrder.code
  let u6 := appendNumSeg u5 "limit" o.limit
  u6 ++ "/key/" ++ apiKey

/-! ### Declarative view of the option segments (for the segment claims) -/

/-- The `(fieldName, value)` pair contributed by a string option: one pair
when present and truthy, nothing otherwise. -/
def optStrSeg (fieldName : String) (v : Option String) : List (String × String) :=
  match v with
  | none => []
  | some s => if s = "" then [] else [(fieldName, s)]

/-- The `(fieldName, value)` pair contributed by a number option. -/
def optNumSeg (fieldName : String) (v : Option Int) : List (String × String) :=
  match v with
  | none => []
  | some n => if n = 0 then [] else [(fieldName, toString n)]

/-- The `(fieldName, value)` pair contributed by an enumeration option. -/
def optEnumSeg {α : Type} (fieldName : String) (v : Option α)
    (code : α → String) : List (String × String) :=
  match v with
  | none => []
  | some x => [(fieldName, code x)]

/-- All option segments of a `SearchOptions`, in the fixed source order:
language, username, sex, rate, order, limit.  Exactly one pair per present
truthy field; absent or falsy fields contribute nothing; `country` never
contributes. -/
def fieldSegs (o : SearchOptions) : List (String × String) :=
  optStrSeg "id_lang_speak" o.language ++ optStrSeg "username" o.username ++
  optEnumSeg "sex" o.sex Sex.code ++ optNumSeg "rate" o.rate ++
  optEnumSeg "order" o.order SortOrder.code ++ optNumSeg "limit" o.limit

/-- Render a list of `(fieldName, value)` pairs as `/fieldName/value` path
segments. -/
def renderSegs : List (String × String) → String
  | [] => ""
  | (f, v) :: rest => "/" ++ f ++ "/" ++ v ++ renderSegs rest

/-! ### Lookup response model and error translation (`searchWord`, lines 98–113) -/

/-- One entry of the lookup response; the orchestration reads exactly its
identifier and its audio URL. -/
structure PronItem where
  id : Nat
  pathmp3 : String
deriving DecidableEq

/-- Decoded JSON envelope: an optional `error` field and an optional ordered
`items` list (`result.items` may be absent). -/
structure ForvoResponse where
  error : Option String := none
  items : Option (List PronItem) := none
deriving DecidableEq

/-- Audio payload (the `ArrayBuffer` bytes). -/
def ByteBuf : Type := List Nat

instance : DecidableEq ByteBuf := inferInstanceAs (DecidableEq (List Nat))

/-- Error translation in `searchWord` (`src/main.ts:98-113`).  The argument is
the transport outcome of the GET (decoded body on success, cause on failure).
A truthy `error` field raises `Forvo API error: <msg>` inside the `try`, and
the single `catch` rewraps every failure — its own throw included — as
`Failed to fetch pronunciations: <message>`. -/
def decodeLookup (transport : Except String ForvoResponse) :
    Except String ForvoResponse :=
  match transport with
  | .error e => .error ("Failed to fetch pronunciations: " ++ e)
  | .ok data =>
    match data.error with
    | some msg =>
      if msg = "" then .ok data
      else .error ("Failed to fetch pronunciations: " ++ ("Forvo API error: " ++ msg))
    | none => .ok data

/-- Outcomes of the two network calls an invocation can make: the lookup GET
(keyed by URL) and the audio GET (keyed by URL). -/
structure Env where
  lookup : String → Except String ForvoResponse
  audio : String → Except String ByteBuf

/-- The plugin settings record (`src/main.ts:3-6`). -/
structure Settings where
  apiKey : String
  downloadPath : String
deriving DecidableEq

/-- `ForvoAPI.downloadPronunciation` (`src/main.ts:116-127`): returns the
bytes, rewrapping a transport failure as
`Failed to download pronunciation: <cause>`. -/
def downloadPronunciation (env : Env) (url : String) : Except String ByteBuf :=
  match env.audio url with
  | .ok b => .ok b
  | .error e => .error ("Failed to download pronunciation: " ++ e)

/-- File name derived at `src/main.ts:144`:
`${downloadPath}/${word}_${id}.mp3`. -/
def storedFileName (downloadPath word : String) (id : Nat) : String :=
  downloadPath ++ "/" ++ word ++ "_" ++ toString id ++ ".mp3"

/-- Observable effects of one orchestration run: the URLs of the lookup and
audio GETs issued, the vault writes, the editor insertions (cursor, text), and
the notices shown. -/
structure Trace where
  lookupCalls : List String := []
  audioCalls : List String := []
  writes : List (String × ByteBuf) := []
  inserts : List ((Nat × Nat) × String) := []
  notices : List String := []
deriving DecidableEq

/-- `PronunciationDownloader.downloadPronunciationWithLanguage`
(`src/main.ts:134-162`), as a function from the network environment, the
settings, the word, the language code, and the optional editor (with its
current cursor) to the trace of effects.  Mirrors the source: search with
`{language}`, guard `result.items && result.items.length > 0`, fetch
`items[0].pathmp3`, write the derived file, insert `\n![[fileName]]\n` at the
cursor when an editor was supplied, and show the corresponding notice; any
thrown error reaches the single `catch`, which shows
`Failed to download pronunciation: <message>`. -/
def downloadPronunciationWithLanguage (env : Env) (s : Settings)
    (word language : String) (editor : Option (Nat × Nat)) : Trace :=
  let url := searchWordURL s.apiKey word { language := some language }
  match decodeLookup (env.lookup url) with
  | .error e =>
    { lookupCalls := [url],
      notices := ["Failed to download pronunciation: " ++ e] }
  | .ok result =>
    match result.items with
    | some (p :: _) =>
      match downloadPronunciation env p.pathmp3 with
      | .error e =>
        { lookupCalls := [url], audioCalls := [p.pathmp3],
          notices := ["Failed to download pronunciation: " ++ e] }
      | .ok audioData =>
        let fileName := storedFileName s.downloadPath word p.id
        { lookupCalls := [url], audioCalls := [p.pathmp3],
          writes := [(fileName, audioData)],
          inserts :=
            match editor with
            | some cursor => [(cursor, "\n" ++ ("![[" ++ fileName ++ "]]") ++ "\n")]
            | none => [],
          notices := ["Downloaded pronunciation for \"" ++ word ++ "\""] }
    | some [] =>
      { lookupCalls := [url],
        notices := ["No pronunciation found for \"" ++ word ++ "\""] }
    | none =>
      { lookupCalls := [url],
        notices := ["No pronunciation found for \"" ++ word ++ "\""] }

/-! ### Ribbon and command handlers (`onload`, lines 170–194) -/

/-- Immediate UI effects of a handler invocation.  `networkRequest` is what a
GET would appear as; the handlers themselves never produce one (network
traffic only starts later, from the modal's language buttons). -/
inductive UIEffect
  | notice (msg : String)
  | openLanguageModal (word : String) (hasEditor : Bool)
  | networkRequest (url : String)
deriving DecidableEq

/-- Notice text shown when no word is selected (`src/main.ts:177,191`). -/
def promptMsg : String := "Please select a word to download its pronunciation"

/-- Ribbon-icon handler (`src/main.ts:170-180`).  The argument is `none` when
no markdown view is active, otherwise the active editor's selection (possibly
empty). -/
def ribbonAction (activeSelection : Option String) : List UIEffect :=
  match activeSelection with
  | none => []
  | some sel =>
    if sel = "" then [.notice promptMsg]
    else [.openLanguageModal sel true]

/-- Palette-command handler (`src/main.ts:183-194`); its `editorCallback`
always receives an editor, whose selection may be empty. -/
def commandAction (sel : String) : List UIEffect :=
  if sel = "" then [.notice promptMsg]
  else [.openLanguageModal sel true]

/-! ### Helper lemmas -/

theorem appendStrSeg_eq (url f : String) (v : Option String) :
    appendStrSeg url f v = url ++ renderSegs (optStrSeg f v) := by
  cases v with
  | none => simp [appendStrSeg, optStrSeg, renderSegs, String.append_empty]
  | some s =>
    by_cases h : s = "" <;>
      simp [appendStrSeg, optStrSeg, renderSegs, h, String.append_empty,
        String.append_assoc]

theorem appendNumSeg_eq (url f : String) (v : Option Int) :
    appendNumSeg url f v = url ++ renderSegs (optNumSeg f v) := by
  cases v with
  | none => simp [appendNumSeg, optNumSeg, renderSegs, String.append_empty]
  | some n =>
    by_cases h : n = 0 <;>
      simp [appendNumSeg, optNumSeg, renderSegs, h, String.append_empty,
        String.append_assoc]

theorem appendEnumSeg_eq {α : Type} (url f : String) (v : Option α)
    (code : α → String) :
    appendEnumSeg url f v code = url ++ renderSegs (optEnumSeg f v code) := by
  cases v with
  | none => simp [appendEnumSeg, optEnumSeg, renderSegs, String.append_empty]
  | some x =>
    simp [appendEnumSeg, optEnumSeg, renderSegs, String.append_empty,
      String.append_assoc]

theorem renderSegs_append (a b : List (String × String)) :
    renderSegs (a ++ b) = renderSegs a ++ renderSegs b := by
  induction a with
  | nil => simp [renderSegs, String.empty_append]
  | cons p rest ih =>
    obtain ⟨f, v⟩ := p
    simp [renderSegs, ih, String.append_assoc]

theorem searchWordURL_decomposed (key word : String) (o : SearchOptions) :
    searchWordURL key word o =
      forvoBase ++ "/action/word-pronunciations/format/json/word/"
        ++ (encodeURIComponent word
          ++ (renderSegs (fieldSegs o) ++ ("/key/" ++ key))) := by
  simp only [searchWordURL, fieldSegs]
  rw [appendStrSeg_eq, appendStrSeg_eq, appendEnumSeg_eq, appendNumSeg_eq,
    appendEnumSeg_eq, appendNumSeg_eq, renderSegs_append, renderSegs_append,
    renderSegs_append, renderSegs_append, renderSegs_append]
  simp [String.append_assoc]

theorem hexDigit_unreserved (n : Nat) : isUnreservedChar (hexDigit n) = true := by
  by_cases h : n < 16
  · interval_cases n <;> decide
  · unfold hexDigit
    rw [List.getD_eq_default]
    · decide
    · have hl : ("0123456789ABCDEF".data).length = 16 := by decide
      omega

theorem percentBytes_good (bs : List Nat) :
    ∀ c ∈ percentBytes bs, (isUnreservedChar c || c == '%') = true := by
  induction bs with
  | nil => intro c hc; simp [percentBytes] at hc
  | cons b rest ih =>
    intro c hc
    simp only [percentBytes, List.mem_cons] at hc
    rcases hc with rfl | rfl | rfl | hc
    · decide
    · simp [hexDigit_unreserved]
    · simp [hexDigit_unreserved]
    · exact ih c hc

theorem encodeChars_good (l : List Char) :
    ∀ c ∈ encodeChars l, (isUnreservedChar c || c == '%') = true := by
  induction l with
  | nil => intro c hc; simp [encodeChars] at hc
  | cons a rest ih =>
    intro c hc
    simp only [encodeChars] at hc
    rcases List.mem_append.mp hc with h | h
    · split at h
      next ha =>
        simp only [List.mem_singleton] at h
        subst h
        simp [ha]
      next ha => exact percentBytes_good _ c h
    · exact ih c h

theorem good_char_safe (c : Char)
    (h : (isUnreservedChar c || c == '%') = true) :
    c.toNat < 128 ∧ c ≠ '/' ∧ c ≠ ' ' := by
  rcases Bool.or_eq_true_iff.mp h with h1 | h2
  · unfold isUnreservedChar at h1
    simp only [Bool.or_eq_true, Bool.and_eq_true, decide_eq_true_eq,
      beq_iff_eq] at h1
    refine ⟨by omega, ?_, ?_⟩
    · intro he
      subst he
      revert h1
      decide
    · intro he
      subst he
      revert h1
      decide
  · have hc : c = '%' := by
      have := beq_iff_eq.mp h2
      exact this
    subst hc
    refine ⟨by decide, by decide, by decide⟩

theorem head_append_left (l1 l2 : List Char) (c : Char) (h : l1.head? = some c) :
    (l1 ++ l2).head? = some c := by
  cases l1 <;> simp_all

/-! ### Test data shared by the concrete witnesses -/

/-- Environment whose lookup yields one item and whose audio fetch succeeds. -/
def envOk : Env where
  lookup := fun _ =>
    .ok { error := none,
          items := some [{ id := 12345, pathmp3 := "https://example/a.mp3" }] }
  audio := fun _ => .ok [1, 2, 3]

/-- Environment whose lookup yields one item but whose audio fetch fails. -/
def envAudioFail : Env where
  lookup := fun _ =>
    .ok { error := none,
          items := some [{ id := 12345, pathmp3 := "https://example/a.mp3" }] }
  audio := fun _ => .error "net down"

/-- Environment whose lookup yields an empty item list. -/
def envEmpty : Env where
  lookup := fun _ => .ok { error := none, items := some [] }
  audio := fun _ => .ok []

/-- Concrete settings used by the witnesses. -/
def settingsA : Settings := { apiKey := "KEY", downloadPath := "pronunciations" }

/-! ### Claims -/

/-- Claim C1 — counterexample.  A `SearchOptions` with a present country code
produces a URL with no country segment at all: the URL equals the one built
with no options, and the country value does not occur anywhere in it.  This
contradicts "exactly one `/fieldName/value` path segment for each present
optional field (… country code …)". -/
theorem C1_country_counterexample :
    searchWordURL "KEY" "cat" { country := some "us" }
      = searchWordURL "KEY" "cat" {} ∧
    occursIn "us".data (searchWordURL "KEY" "cat" { country := some "us" }).data
      = false := by
  constructor
  · rfl
  · decide

/-- Claim C1 (amended): the URL is the word segment with the encoded term,
followed by exactly one `/fieldName/value` segment for each present *truthy*
optional field among language, username, sex, rate, order and limit, in that
fixed order (`fieldSegs`), and it always ends with the `/key/<apiKey>`
credential segment; the country field never contributes, so changing it never
changes the URL. -/
theorem C1_url_segments (key word : String) (o : SearchOptions) :
    searchWordURL key word o =
      forvoBase ++ "/action/word-pronunciations/format/json/word/"
        ++ (encodeURIComponent word
          ++ (renderSegs (fieldSegs o) ++ ("/key/" ++ key))) ∧
    ∀ c, searchWordURL key word { o with country := c }
        = searchWordURL key word o := by
  refine ⟨searchWordURL_decomposed key word o, ?_⟩
  intro c
  cases o
  rfl

/-- Claim C2 — counterexample.  A transport failure and a body-level service
error can produce the *same* outcome, so the two failure kinds are not
distinguishable: both are rethrown by the one `catch` as the same error kind
with the same `Failed to fetch pronunciations: ` wrapping. -/
theorem C2_error_kind_counterexample :
    decodeLookup (.error "Forvo API error: Limit Reached")
      = decodeLookup (.ok { error := some "Limit Reached" }) ∧
    decodeLookup (.ok { error := some "Limit Reached" })
      = .error "Failed to fetch pronunciations: Forvo API error: Limit Reached" := by
  constructor <;> rfl

/-- Claim C2 (amended): when the decoded body carries a non-empty error
message, the lookup fails with message
`Failed to fetch pronunciations: Forvo API error: <msg>` — the service message
is contained verbatim as a suffix — while a transport failure fails with
`Failed to fetch pronunciations: <cause>`; both failures are the same error
kind, distinguishable only by their message text. -/
theorem C2_lookup_error_message (r : ForvoResponse) (msg : String)
    (he : r.error = some msg) (hne : msg ≠ "") :
    decodeLookup (.ok r)
      = .error ("Failed to fetch pronunciations: "
          ++ ("Forvo API error: " ++ msg)) ∧
    ("Failed to fetch pronunciations: " ++ ("Forvo API error: " ++ msg)).data
      = "Failed to fetch pronunciations: Forvo API error: ".data ++ msg.data ∧
    ∀ e, decodeLookup (.error e)
        = .error ("Failed to fetch pronunciations: " ++ e) := by
  refine ⟨?_, ?_, fun e => rfl⟩
  · simp [decodeLookup, he, hne]
  · have h1 : "Failed to fetch pronunciations: " ++ ("Forvo API error: " ++ msg)
        = "Failed to fetch pronunciations: Forvo API error: " ++ msg := by
      rw [← String.append_assoc]
      rfl
    rw [h1, String.data_append]

theorem C2_lookup_error_message_witness :
    decodeLookup (.ok { error := some "Limit Reached" })
      = .error ("Failed to fetch pronunciations: "
          ++ ("Forvo API error: " ++ "Limit Reached")) ∧
    ("Failed to fetch pronunciations: "
        ++ ("Forvo API error: " ++ "Limit Reached")).data
      = "Failed to fetch pronunciations: Forvo API error: ".data
          ++ "Limit Reached".data ∧
    ∀ e, decodeLookup (.error e)
        = .error ("Failed to fetch pronunciations: " ++ e) :=
  C2_lookup_error_message { error := some "Limit Reached" } "Limit Reached"
    rfl (by decide)

/-- Claim C7: the search term appears percent-encoded as the word path
segment of the built URL: the URL decomposes around `encodeURIComponent word`,
whose characters are all ASCII and never a slash or a space (so the segment
boundaries are exact), and spaces, slashes and non-ASCII characters are
percent-encoded, as the concrete evaluations show. -/
theorem C7_word_percent_encoded (key word : String) (o : SearchOptions) :
    (∃ rest, searchWordURL key word o
        = forvoBase ++ "/action/word-pronunciations/format/json/word/"
          ++ (encodeURIComponent word ++ rest)) ∧
    (∀ c ∈ (encodeURIComponent word).data, c.toNat < 128 ∧ c ≠ '/' ∧ c ≠ ' ') ∧
    encodeURIComponent "a b" = "a%20b" ∧
    encodeURIComponent "a/b" = "a%2Fb" ∧
    encodeURIComponent "né" = "n%C3%A9" := by
  refine ⟨⟨renderSegs (fieldSegs o) ++ ("/key/" ++ key),
      searchWordURL_decomposed key word o⟩, ?_, ?_, ?_, ?_⟩
  · intro c hc
    exact good_char_safe c (encodeChars_good word.data c hc)
  · rfl
  · rfl
  · rfl

/-- Claim C10: a present minimum-rating of `0` or a present result-limit of
`0` is falsy in JS, so `searchWord` omits the `/rate/` or `/limit/` segment
and yields exactly the URL built with the field absent. -/
theorem C10_zero_rate_limit_omitted (key word : String) (o : SearchOptions) :
    searchWordURL key word { o with rate := some 0 }
      = searchWordURL key word { o with rate := none } ∧
    searchWordURL key word { o with limit := some 0 }
      = searchWordURL key word { o with limit := none } := by
  cases o
  constructor <;> simp [searchWordURL, appendNumSeg]

/-- Claim C3: whenever the lookup response has a non-empty item list, the
orchestration fetches audio for `items[0].pathmp3` and for nothing else,
whatever the later items are and however the audio fetch turns out. -/
theorem C3_first_item_only (env : Env) (s : Settings) (word lang : String)
    (editor : Option (Nat × Nat)) (r : ForvoResponse) (p : PronItem)
    (rest : List PronItem)
    (hl : env.lookup (searchWordURL s.apiKey word { language := some lang })
        = .ok r)
    (he : r.error = none) (hi : r.items = some (p :: rest)) :
    (downloadPronunciationWithLanguage env s word lang editor).audioCalls
      = [p.pathmp3] := by
  simp only [downloadPronunciationWithLanguage]
  rw [hl]
  simp only [decodeLookup, he, hi]
  cases hA : env.audio p.pathmp3 <;>
    simp [downloadPronunciation, hA]

theorem C3_first_item_only_witness :
    (downloadPronunciationWithLanguage envOk settingsA "hello" "39" none).audioCalls
      = ["https://example/a.mp3"] :=
  C3_first_item_only envOk settingsA "hello" "39" none
    ⟨none, some [⟨12345, "https://example/a.mp3"⟩]⟩
    ⟨12345, "https://example/a.mp3"⟩ [] rfl rfl rfl

/-- Claim C4: whenever the lookup response's item list is empty or absent, the
run's whole trace is one lookup call and the not-found notice — no audio
fetch, no write, no insertion — and that notice can never coincide with the
failure notice used for transport or lookup errors. -/
theorem C4_not_found (env : Env) (s : Settings) (word lang : String)
    (editor : Option (Nat × Nat)) (r : ForvoResponse)
    (hl : env.lookup (searchWordURL s.apiKey word { language := some lang })
        = .ok r)
    (he : r.error = none) (hi : r.items = none ∨ r.items = some []) :
    downloadPronunciationWithLanguage env s word lang editor =
      { lookupCalls := [searchWordURL s.apiKey word { language := some lang }],
        notices := ["No pronunciation found for \"" ++ word ++ "\""] } ∧
    ∀ e, "No pronunciation found for \"" ++ word ++ "\""
        ≠ "Failed to download pronunciation: " ++ e := by
  constructor
  · simp only [downloadPronunciationWithLanguage]
    rw [hl]
    simp only [decodeLookup, he]
    rcases hi with hi | hi <;> rw [hi]
  · intro e h
    have h2 := congrArg (fun t => t.data.head?) h
    simp only [String.data_append] at h2
    rw [head_append_left ("No pronunciation found for \"".data ++ word.data)
          "\"".data 'N'
          (head_append_left "No pronunciation found for \"".data word.data 'N' rfl),
        head_append_left "Failed to download pronunciation: ".data e.data 'F'
          rfl] at h2
    exact absurd h2 (by decide)

theorem C4_not_found_witness :
    downloadPronunciationWithLanguage envEmpty settingsA "empty" "39" none =
      { lookupCalls :=
          [searchWordURL settingsA.apiKey "empty" { language := some "39" }],
        notices := ["No pronunciation found for \"" ++ "empty" ++ "\""] } ∧
    ∀ e, "No pronunciation found for \"" ++ "empty" ++ "\""
        ≠ "Failed to download pronunciation: " ++ e :=
  C4_not_found envEmpty settingsA "empty" "39" none ⟨none, some []⟩
    rfl rfl (Or.inr rfl)

/-- Claim C5: when the lookup succeeds with at least one item but the audio
fetch fails, the trace records the lookup call, the attempted audio call and
the failure notice — and no write and no insertion (the notice doubles the
wrapping because `downloadPronunciation` rewraps before the orchestration's
`catch` wraps again). -/
theorem C5_audio_failure_no_write (env : Env) (s : Settings)
    (word lang : String) (editor : Option (Nat × Nat)) (r : ForvoResponse)
    (p : PronItem) (rest : List PronItem) (e : String)
    (hl : env.lookup (searchWordURL s.apiKey word { language := some lang })
        = .ok r)
    (he : r.error = none) (hi : r.items = some (p :: rest))
    (ha : env.audio p.pathmp3 = .error e) :
    downloadPronunciationWithLanguage env s word lang editor =
      { lookupCalls := [searchWordURL s.apiKey word { language := some lang }],
        audioCalls := [p.pathmp3],
        notices := ["Failed to download pronunciation: "
          ++ ("Failed to download pronunciation: " ++ e)] } := by
  simp only [downloadPronunciationWithLanguage]
  rw [hl]
  simp only [decodeLookup, he, hi]
  simp [downloadPronunciation, ha]

theorem C5_audio_failure_no_write_witness :
    downloadPronunciationWithLanguage envAudioFail settingsA "hello" "39" none =
      { lookupCalls :=
          [searchWordURL settingsA.apiKey "hello" { language := some "39" }],
        audioCalls := ["https://example/a.mp3"],
        notices := ["Failed to download pronunciation: "
          ++ ("Failed to download pronunciation: " ++ "net down")] } :=
  C5_audio_failure_no_write envAudioFail settingsA "hello" "39" none
    ⟨none, some [⟨12345, "https://example/a.mp3"⟩]⟩
    ⟨12345, "https://example/a.mp3"⟩ [] "net down" rfl rfl rfl rfl

/-- Claim C6: on a successful run the written path is exactly
`<downloadPath>/<word>_<id>.mp3`, the inserted embed reference wraps that very
same string, and the path is the base path followed by a suffix that does not
depend on the base path. -/
theorem C6_stored_path_and_embed (env : Env) (s : Settings)
    (word lang : String) (cursor : Nat × Nat) (r : ForvoResponse)
    (p : PronItem) (rest : List PronItem) (bytes : ByteBuf)
    (hl : env.lookup (searchWordURL s.apiKey word { language := some lang })
        = .ok r)
    (he : r.error = none) (hi : r.items = some (p :: rest))
    (ha : env.audio p.pathmp3 = .ok bytes) :
    (downloadPronunciationWithLanguage env s word lang (some cursor)).writes
      = [(storedFileName s.downloadPath word p.id, bytes)] ∧
    (downloadPronunciationWithLanguage env s word lang (some cursor)).inserts
      = [(cursor, "\n" ++ ("![[" ++ storedFileName s.downloadPath word p.id
          ++ "]]") ++ "\n")] ∧
    ∀ dp, storedFileName dp word p.id
        = dp ++ "/" ++ (word ++ "_" ++ toString p.id ++ ".mp3") := by
  refine ⟨?_, ?_, ?_⟩
  · simp only [downloadPronunciationWithLanguage]
    rw [hl]
    simp only [decodeLookup, he, hi]
    simp [downloadPronunciation, ha]
  · simp only [downloadPronunciationWithLanguage]
    rw [hl]
    simp only [decodeLookup, he, hi]
    simp [downloadPronunciation, ha]
  · intro dp
    simp [storedFileName, String.append_assoc]

theorem C6_stored_path_and_embed_witness :
    (downloadPronunciationWithLanguage envOk settingsA "hello" "39"
        (some (0, 0))).writes
      = [(storedFileName settingsA.downloadPath "hello" 12345, [1, 2, 3])] ∧
    (downloadPronunciationWithLanguage envOk settingsA "hello" "39"
        (some (0, 0))).inserts
      = [((0, 0), "\n" ++ ("![[" ++ storedFileName settingsA.downloadPath
          "hello" 12345 ++ "]]") ++ "\n")] ∧
    ∀ dp, storedFileName dp "hello" 12345
        = dp ++ "/" ++ ("hello" ++ "_" ++ toString 12345 ++ ".mp3") :=
  C6_stored_path_and_embed envOk settingsA "hello" "39" (0, 0)
    ⟨none, some [⟨12345, "https://example/a.mp3"⟩]⟩
    ⟨12345, "https://example/a.mp3"⟩ [] [1, 2, 3] rfl rfl rfl rfl

/-- Claim C8: on a successful download, an embed reference for the stored
file is inserted at the current cursor, on its own line surrounded by
newlines, whenever an editor was supplied; with no editor, nothing is
inserted. -/
theorem C8_embed_at_cursor (env : Env) (s : Settings) (word lang : String)
    (r : ForvoResponse) (p : PronItem) (rest : List PronItem) (bytes : ByteBuf)
    (hl : env.lookup (searchWordURL s.apiKey word { language := some lang })
        = .ok r)
    (he : r.error = none) (hi : r.items = some (p :: rest))
    (ha : env.audio p.pathmp3 = .ok bytes) :
    (∀ cursor : Nat × Nat,
      (downloadPronunciationWithLanguage env s word lang (some cursor)).inserts
        = [(cursor, "\n" ++ ("![[" ++ storedFileName s.downloadPath word p.id
            ++ "]]") ++ "\n")]) ∧
    (downloadPronunciationWithLanguage env s word lang none).inserts = [] := by
  constructor
  · intro cursor
    simp only [downloadPronunciationWithLanguage]
    rw [hl]
    simp only [decodeLookup, he, hi]
    simp [downloadPronunciation, ha]
  · simp only [downloadPronunciationWithLanguage]
    rw [hl]
    simp only [decodeLookup, he, hi]
    simp [downloadPronunciation, ha]

theorem C8_embed_at_cursor_witness :
    (∀ cursor : Nat × Nat,
      (downloadPronunciationWithLanguage envOk settingsA "hello" "39"
          (some cursor)).inserts
        = [(cursor, "\n" ++ ("![[" ++ storedFileName settingsA.downloadPath
            "hello" 12345 ++ "]]") ++ "\n")]) ∧
    (downloadPronunciationWithLanguage envOk settingsA "hello" "39"
        none).inserts = [] :=
  C8_embed_at_cursor envOk settingsA "hello" "39"
    ⟨none, some [⟨12345, "https://example/a.mp3"⟩]⟩
    ⟨12345, "https://example/a.mp3"⟩ [] [1, 2, 3] rfl rfl rfl rfl

/-- Claim C9 — counterexample.  When the ribbon action fires with no active
markdown view (so the selected word is missing), the handler does nothing:
no network call, but also no prompt, contradicting "the user is prompted to
make a selection first". -/
theorem C9_no_view_counterexample :
    ribbonAction none = [] ∧
    UIEffect.notice promptMsg ∉ ribbonAction none := by
  constructor
  · rfl
  · simp [ribbonAction]

/-- Claim C9 (amended): with an empty selection the ribbon action (given an
active view) and the palette command attempt no network call and show the
selection prompt; the ribbon action with no active view attempts no network
call either, but shows nothing at all. -/
theorem C9_empty_selection_prompt (sel : String) (h : sel = "") :
    ribbonAction (some sel) = [UIEffect.notice promptMsg] ∧
    commandAction sel = [UIEffect.notice promptMsg] ∧
    ribbonAction none = [] ∧
    ∀ u, UIEffect.networkRequest u ∉ ribbonAction (some sel)
      ∧ UIEffect.networkRequest u ∉ commandAction sel
      ∧ UIEffect.networkRequest u ∉ ribbonAction none := by
  subst h
  refine ⟨rfl, rfl, rfl, fun u => ⟨?_, ?_, ?_⟩⟩ <;>
    simp [ribbonAction, commandAction, promptMsg]

theorem C9_empty_selection_prompt_witness :
    ribbonAction (some "") = [UIEffect.notice promptMsg] ∧
    commandAction "" = [UIEffect.notice promptMsg] ∧
    ribbonAction none = [] ∧
    ∀ u, UIEffect.networkRequest u ∉ ribbonAction (some "")
      ∧ UIEffect.networkRequest u ∉ commandAction ""
      ∧ UIEffect.networkRequest u ∉ ribbonAction none :=
  C9_empty_selection_prompt "" rfl
